import Mathlib

/-!
Verification of the attrition-prediction core of the `sentiment` repository.

The embedding follows `src/predict_attrition.py` (class `AttritionPredictor`),
`src/llm_engagement.py` (risk-tier branches of `get_conversation_starter`),
`main.py` and `src/GCP_fastAPI.py` (call sites of `predict_simplified_input`).
Python dictionaries are modelled as insertion-ordered association lists,
floats as rationals, and fallible code returns `Except`.
-/

namespace Sentiment

/-- A Python value stored in a simplified-input profile: a number (int/float)
or a string. -/
inductive Value where
  | num (q : ℚ)
  | str (s : String)
deriving DecidableEq, Repr

/-- `simplified_data`: a Python dict from attribute name to value, modelled as
an insertion-ordered association list with unique keys. -/
abbrev Profile := List (String × Value)

/-- `full_features`: a Python dict from model column name to numeric value. -/
abbrev FeatureVec := List (String × ℚ)

/-- `llm_context`: a Python dict from attribute name to free-text value. -/
abbrev Ctx := List (String × String)

/-- Python `s.startswith(pre)`: character-wise prefix test. -/
def pyStartsWith (s pre : String) : Bool := pre.data.isPrefixOf s.data

/-- Recursion core of Python `s.replace(pat, rep)` for a nonempty pattern:
scan left to right, replacing each non-overlapping occurrence. The fuel is
the length of the scanned text, enough since every step consumes at least
one character. -/
def pyReplaceAux : Nat → List Char → List Char → List Char → List Char
  | 0, s, _, _ => s
  | Nat.succ fuel, s, pat, rep =>
    match s with
    | [] => []
    | c :: rest =>
      if pat.isPrefixOf s then rep ++ pyReplaceAux fuel (s.drop pat.length) pat rep
      else c :: pyReplaceAux fuel rest pat rep

/-- Python `s.replace(pat, rep)` (all occurrences, left to right,
non-overlapping), modelled for a nonempty pattern. -/
def pyReplace (s pat rep : String) : String :=
  ⟨pyReplaceAux s.data.length s.data pat.data rep.data⟩

/-- Python dict assignment `m[k] = v`: overwrite in place when the key exists
(insertion order kept), append at the end otherwise. -/
def setKey (m : List (String × α)) (k : String) (v : α) : List (String × α) :=
  if (m.lookup k).isSome then
    m.map (fun kv => if kv.1 = k then (k, v) else kv)
  else m ++ [(k, v)]

/-- The key list of a dict, in insertion order. -/
def keys (m : List (String × α)) : List String := m.map Prod.fst

/-- `self.threshold = 0.68` set in `AttritionPredictor.__init__`. -/
def threshold : ℚ := 68 / 100

/-- The five unconditional numeric normalizations of
`_create_full_feature_vector` (source lines 152-171), each entry
`(attribute, center, scale)`; the assignment `full_features[K] = (v - c) / s`
is applied whenever `K` is present in the profile, with no membership check
against the column set. -/
def mainNumericMappings : List (String × ℚ × ℚ) :=
  [("Age", 35, 10),
   ("MonthlyIncome", 6000, 4000),
   ("YearsAtCompany", 5, 5),
   ("TotalWorkingYears", 10, 8),
   ("DistanceFromHome", 10, 10)]

/-- `optional_numeric_mappings` (source lines 174-179): `(attribute, mean, std)`;
the assignment is guarded by `feature_name in full_features`. -/
def optionalNumericMappings : List (String × ℚ × ℚ) :=
  [("YearsInCurrentRole", 2, 3),
   ("YearsSinceLastPromotion", 2, 3),
   ("YearsWithCurrManager", 2, 3),
   ("TrainingTimesLastYear", 2, 2)]

/-- `categorical_mappings` (source lines 196-284): per attribute, the map from
selected option label to one-hot model column name. -/
def categoricalMappings : List (String × List (String × String)) :=
  [("OverTime", [("Yes", "OverTime_Yes")]),
   ("Department",
    [("Sales", "Department_Sales"),
     ("Research & Development", "Department_Research & Development"),
     ("Human Resources", "Department_Human Resources")]),
   ("JobLevel",
    [("Entry Level", "JobLevel_1"),
     ("Junior Level", "JobLevel_2"),
     ("Mid Level", "JobLevel_3"),
     ("Senior Level", "JobLevel_4"),
     ("Executive Level", "JobLevel_5")]),
   ("JobSatisfaction",
    [("Low", "JobSatisfaction_1"),
     ("Medium", "JobSatisfaction_2"),
     ("High", "JobSatisfaction_3"),
     ("Very High", "JobSatisfaction_4")]),
   ("WorkLifeBalance",
    [("Bad", "WorkLifeBalance_1"),
     ("Good", "WorkLifeBalance_2"),
     ("Better", "WorkLifeBalance_3"),
     ("Best", "WorkLifeBalance_4")]),
   ("EnvironmentSatisfaction",
    [("Low", "EnvironmentSatisfaction_1"),
     ("Medium", "EnvironmentSatisfaction_2"),
     ("High", "EnvironmentSatisfaction_3"),
     ("Very High", "EnvironmentSatisfaction_4")]),
   ("MaritalStatus",
    [("Single", "MaritalStatus_Single"),
     ("Married", "MaritalStatus_Married"),
     ("Divorced", "MaritalStatus_Divorced")]),
   ("BusinessTravel",
    [("Travel_Rarely", "BusinessTravel_Travel_Rarely"),
     ("Travel_Frequently", "BusinessTravel_Travel_Frequently"),
     ("Non-Travel", "BusinessTravel_Non-Travel")]),
   ("Education",
    [("Below College", "Education_1"),
     ("College", "Education_2"),
     ("Bachelor", "Education_3"),
     ("Master", "Education_4"),
     ("Doctor", "Education_5")]),
   ("EducationField",
    [("Life Sciences", "EducationField_Life Sciences"),
     ("Medical", "EducationField_Medical"),
     ("Marketing", "EducationField_Marketing"),
     ("Technical Degree", "EducationField_Technical Degree"),
     ("Human Resources", "EducationField_Human Resources"),
     ("Other", "EducationField_Other")]),
   ("Gender",
    [("Male", "Gender_Male"),
     ("Female", "Gender_Female")]),
   ("JobInvolvement",
    [("Low", "JobInvolvement_1"),
     ("Medium", "JobInvolvement_2"),
     ("High", "JobInvolvement_3"),
     ("Very High", "JobInvolvement_4")]),
   ("JobRole",
    [("Sales Executive", "JobRole_Sales Executive"),
     ("Research Scientist", "JobRole_Research Scientist"),
     ("Laboratory Technician", "JobRole_Laboratory Technician"),
     ("Manufacturing Director", "JobRole_Manufacturing Director"),
     ("Healthcare Representative", "JobRole_Healthcare Representative"),
     ("Manager", "JobRole_Manager"),
     ("Sales Representative", "JobRole_Sales Representative"),
     ("Research Director", "JobRole_Research Director"),
     ("Human Resources", "JobRole_Human Resources")]),
   ("RelationshipSatisfaction",
    [("Low", "RelationshipSatisfaction_1"),
     ("Medium", "RelationshipSatisfaction_2"),
     ("High", "RelationshipSatisfaction_3"),
     ("Very High", "RelationshipSatisfaction_4")]),
   ("PerformanceRating",
    [("Excellent", "PerformanceRating_3"),
     ("Outstanding", "PerformanceRating_4")])]

/-- Modelled from the spec: the declared model column list `feature_columns`
is loaded in `__init__` from the binary artifact `models/feature_columns.pkl`,
which is not part of the source tree. Per the spec it is the classifier's
full declared input column set: the numeric attribute columns together with
the one-hot target columns of the categorical mapping table. -/
def feature_columns : List String :=
  ["Age", "MonthlyIncome", "YearsAtCompany", "TotalWorkingYears",
   "DistanceFromHome", "YearsInCurrentRole", "YearsSinceLastPromotion",
   "YearsWithCurrManager", "TrainingTimesLastYear",
   "OverTime_Yes",
   "Department_Sales", "Department_Research & Development",
   "Department_Human Resources",
   "JobLevel_1", "JobLevel_2", "JobLevel_3", "JobLevel_4", "JobLevel_5",
   "JobSatisfaction_1", "JobSatisfaction_2", "JobSatisfaction_3",
   "JobSatisfaction_4",
   "WorkLifeBalance_1", "WorkLifeBalance_2", "WorkLifeBalance_3",
   "WorkLifeBalance_4",
   "EnvironmentSatisfaction_1", "EnvironmentSatisfaction_2",
   "EnvironmentSatisfaction_3", "EnvironmentSatisfaction_4",
   "MaritalStatus_Single", "MaritalStatus_Married", "MaritalStatus_Divorced",
   "BusinessTravel_Travel_Rarely", "BusinessTravel_Travel_Frequently",
   "BusinessTravel_Non-Travel",
   "Education_1", "Education_2", "Education_3", "Education_4", "Education_5",
   "EducationField_Life Sciences", "EducationField_Medical",
   "EducationField_Marketing", "EducationField_Technical Degree",
   "EducationField_Human Resources", "EducationField_Other",
   "Gender_Male", "Gender_Female",
   "JobInvolvement_1", "JobInvolvement_2", "JobInvolvement_3",
   "JobInvolvement_4",
   "JobRole_Sales Executive", "JobRole_Research Scientist",
   "JobRole_Laboratory Technician", "JobRole_Manufacturing Director",
   "JobRole_Healthcare Representative", "JobRole_Manager",
   "JobRole_Sales Representative", "JobRole_Research Director",
   "JobRole_Human Resources",
   "RelationshipSatisfaction_1", "RelationshipSatisfaction_2",
   "RelationshipSatisfaction_3", "RelationshipSatisfaction_4",
   "PerformanceRating_3", "PerformanceRating_4"]

/-- One step `if K in simplified_data: full_features[K] = (simplified_data[K] - c) / s`
of the five unconditional numeric normalizations. Subtracting from a string
raises `TypeError` in Python, modelled as `Except.error`. -/
def setMainNumeric (d : Profile) (ff : FeatureVec) (e : String × ℚ × ℚ) :
    Except String FeatureVec :=
  match d.lookup e.1 with
  | none => .ok ff
  | some (.num q) => .ok (setKey ff e.1 ((q - e.2.1) / e.2.2))
  | some (.str _) => .error "TypeError"

/-- One step of the optional-numeric loop (source lines 181-183), guarded by
`key in simplified_data and feature_name in full_features` (the feature name
equals the key in every table entry). -/
def setOptionalNumeric (d : Profile) (ff : FeatureVec) (e : String × ℚ × ℚ) :
    Except String FeatureVec :=
  match d.lookup e.1 with
  | none => .ok ff
  | some v =>
    if (ff.lookup e.1).isSome then
      match v with
      | .num q => .ok (setKey ff e.1 ((q - e.2.1) / e.2.2))
      | .str _ => .error "TypeError"
    else .ok ff

/-- The body of the categorical loop (source lines 186-289) for one profile
entry `(k, v)`: skip `name`; a string starting with `"OTHER: "` goes to
`llm_context` with every occurrence of `"OTHER: "` removed (`str.replace`);
otherwise a recognized `(attribute, option)` pair sets its one-hot column to 1
when that column exists; everything else is ignored. A non-string value never
matches the string keys of the mapping table. -/
def processCategoricalEntry (st : FeatureVec × Ctx) (k : String) (v : Value) :
    FeatureVec × Ctx :=
  if k = "name" then st
  else
    match v with
    | .num _ => st
    | .str s =>
      if pyStartsWith s "OTHER: " then
        (st.1, setKey st.2 k (pyReplace s "OTHER: " ""))
      else
        match (categoricalMappings.lookup k).bind (fun m => m.lookup s) with
        | some fcol =>
          if (st.1.lookup fcol).isSome then (setKey st.1 fcol 1, st.2) else st
        | none => st

/-- `_create_full_feature_vector(self, simplified_data)` (source lines
147-291): initialize every declared column to 0.0, apply the numeric
normalizations, then run the categorical loop over the profile in insertion
order, returning `(full_features, llm_context)`. -/
def _create_full_feature_vector (cols : List String) (d : Profile) :
    Except String (FeatureVec × Ctx) := do
  let ff ← mainNumericMappings.foldlM (setMainNumeric d)
    (cols.map (fun c => (c, (0 : ℚ))))
  let ff ← optionalNumericMappings.foldlM (setOptionalNumeric d) ff
  pure (d.foldl (fun st kv => processCategoricalEntry st kv.1 kv.2) (ff, []))

/-- The model columns a profile can set, read off the three assignment sites
of `_create_full_feature_vector`: a main numeric column whose attribute is
present in the profile (lines 152-171), an optional numeric column whose
attribute is present (lines 181-183), and the one-hot target column of a
categorical entry of the profile (lines 286-289). A declared column outside
this set is "not set by the profile" and keeps its initial 0.0. -/
def touchedBy (d : Profile) (c : String) : Bool :=
  mainNumericMappings.any (fun e => e.1 == c && (d.lookup e.1).isSome) ||
  optionalNumericMappings.any (fun e => e.1 == c && (d.lookup e.1).isSome) ||
  d.any (fun kv =>
    match kv.2 with
    | .num _ => false
    | .str s =>
      match (categoricalMappings.lookup kv.1).bind (fun m => m.lookup s) with
      | some fcol => fcol == c
      | none => false)

/-- Python `int(x)` applied to a float: truncation toward zero. -/
def pyInt (q : ℚ) : ℤ := if 0 ≤ q then q.floor else q.ceil

/-- The loaded state of an `AttritionPredictor` (built in `__init__`):
`model.predict_proba` restricted to the positive-class probability of one row,
`scaler.transform` on one row, the declared column list, and the test-data
rows (each row a total map from CSV column name to value). -/
structure AttritionPredictor where
  model : List ℚ → ℚ
  scaler : List ℚ → List ℚ
  feature_columns : List String
  test_data : List (String → ℚ)

/-- The result dict of `predict_from_test_data` (source lines 53-60). -/
structure TestPredResult where
  employee_name : String
  employee_index : ℤ
  attrition_probability : ℚ
  will_leave : Bool
  actual_attrition : ℤ
  features : List (String × ℚ)

/-- pandas `iloc` integer row access: nonnegative indices count from the
front, negative indices are end-relative, anything else is an IndexError. -/
def iloc (l : List α) (i : ℤ) : Option α :=
  if 0 ≤ i then l.get? i.toNat
  else if 0 ≤ (l.length : ℤ) + i then l.get? ((l.length : ℤ) + i).toNat
  else none

/-- `predict_from_test_data(self, employee_index)` (source lines 42-62): the
guard compares only `employee_index >= len(self.test_data)` and returns the
error dict naming `len(self.test_data) - 1` as the maximum; otherwise the row
is fetched with `iloc`, its values restricted to `feature_columns` feed
`predict_proba` directly, and the decision thresholds the probability. -/
def predict_from_test_data (P : AttritionPredictor) (employee_index : ℤ) :
    Except String TestPredResult :=
  if (P.test_data.length : ℤ) ≤ employee_index then
    .error ("Employee index " ++ toString employee_index ++
      " not found. Max index: " ++ toString ((P.test_data.length : ℤ) - 1))
  else
    match iloc P.test_data employee_index with
    | none => .error "IndexError"
    | some row =>
      let prob := P.model (P.feature_columns.map row)
      .ok ⟨("Test Employee " ++ toString employee_index),
       employee_index,
       prob,
       decide (threshold ≤ prob),
       pyInt (row "Actual_Attrition"),
       P.feature_columns.map (fun c => (c, row c))⟩

/-- The result dict of `predict_simplified_input` (source lines 136-143). -/
structure ProfilePredResult where
  employee_name : Value
  attrition_probability : ℚ
  will_leave : Bool
  simplified_input : Profile
  features : FeatureVec
  llm_context : Ctx

/-- The computation of `predict_simplified_input` applied to the collected
`employee_data` (source lines 128-145): build the full feature vector, pass
its values through `scaler.transform`, feed the scaled row to
`predict_proba`, and threshold. The interactive collection loop (lines
66-126) is console I/O and is abstracted as the already-collected profile
argument; `employee_data["name"]` missing is a Python `KeyError`. -/
def predict_simplified_input_core (P : AttritionPredictor) (d : Profile) :
    Except String ProfilePredResult := do
  let r ← _create_full_feature_vector P.feature_columns d
  let prob := P.model (P.scaler (r.1.map Prod.snd))
  match d.lookup "name" with
  | some v => pure ⟨v, prob, decide (threshold ≤ prob), d, r.1, r.2⟩
  | none => .error "KeyError"

/-- The declared positional arity of `predict_simplified_input` beyond
`self`: its definition is `def predict_simplified_input(self):` (source line
64), so it accepts zero positional arguments. -/
def predict_simplified_input_arity : Nat := 0

/-- Python bound-method call semantics: a call passing more positional
arguments than the method declares raises `TypeError` before the body runs. -/
def callMethod (arity : Nat) (args : List Profile)
    (body : List Profile → Except String ProfilePredResult) :
    Except String ProfilePredResult :=
  if args.length ≤ arity then body args else .error "TypeError"

/-- The custom-data branch of `main.py` (lines 39-45): it collects
`employee_data` and calls `predictor.predict_simplified_input(employee_data)`
with one positional argument. -/
def main_custom_branch (body : List Profile → Except String ProfilePredResult)
    (employee_data : Profile) : Except String ProfilePredResult :=
  callMethod predict_simplified_input_arity [employee_data] body

/-- The `choice == 2` branch of the `/analyze` endpoint in `GCP_fastAPI.py`
(lines 75-81): it calls `predictor.predict_simplified_input(employee_dict)`
with one positional argument. -/
def analyze_custom_branch (body : List Profile → Except String ProfilePredResult)
    (employee_dict : Profile) : Except String ProfilePredResult :=
  callMethod predict_simplified_input_arity [employee_dict] body

/-- The three branches of the risk interpretation in `display_results`
(source lines 370-378), labelled "HIGH RISK" / "MEDIUM RISK" / "LOW RISK". -/
inductive RiskLevel where
  | high
  | medium
  | low
deriving DecidableEq, Repr

/-- The risk-level branch taken by `display_results` (source lines 370-378):
`prob >= 0.7` is HIGH RISK, else `prob >= 0.4` is MEDIUM RISK, else LOW RISK. -/
def display_risk_level (prob : ℚ) : RiskLevel :=
  if 7 / 10 ≤ prob then .high
  else if 4 / 10 ≤ prob then .medium
  else .low

/-- The questions returned by `get_conversation_starter` on its high-risk
branch (`attrition_probability >= 0.7`, `llm_engagement.py` lines 401-408). -/
def high_risk_questions : List String :=
  ["What immediate retention actions should we take?",
   "How can we address their top concerns quickly?",
   "What compensation adjustments might help?",
   "Should we involve senior management?",
   "What's the timeline for intervention?"]

/-- The questions of the medium-risk branch (`0.4 <= p < 0.7`, lines 409-416). -/
def medium_risk_questions : List String :=
  ["What preventive measures should we implement?",
   "How can we enhance their job satisfaction?",
   "What development opportunities can we offer?",
   "How can we improve their work environment?",
   "What recognition strategies would be effective?"]

/-- The questions of the low-risk branch (`p < 0.4`, lines 417-424). -/
def low_risk_questions : List String :=
  ["How can we maintain their current engagement?",
   "What growth opportunities should we provide?",
   "How can they mentor others?",
   "What new challenges might motivate them?",
   "How can we leverage their strengths?"]

/-- `get_conversation_starter(self, attrition_probability)`
(`llm_engagement.py` lines 399-424): three branches at `>= 0.7` and `>= 0.4`. -/
def get_conversation_starter (attrition_probability : ℚ) : List String :=
  if 7 / 10 ≤ attrition_probability then high_risk_questions
  else if 4 / 10 ≤ attrition_probability then medium_risk_questions
  else low_risk_questions

/-! ### Dictionary lemmas -/

theorem lookup_isSome_iff (m : List (String × α)) (k : String) :
    (m.lookup k).isSome = true ↔ k ∈ keys m := by
  induction m with
  | nil => simp [keys]
  | cons kv t ih =>
    obtain ⟨k0, v0⟩ := kv
    by_cases h : k = k0
    · subst h
      simp [keys, List.lookup]
    · have hb : (k == k0) = false := beq_eq_false_iff_ne.mpr h
      simp [keys, List.lookup, hb, h, ih]

theorem keys_setKey_of_mem (m : List (String × α)) (k : String) (v : α)
    (h : k ∈ keys m) : keys (setKey m k v) = keys m := by
  have hsome : (m.lookup k).isSome = true := (lookup_isSome_iff m k).mpr h
  unfold setKey
  simp only [hsome, if_true, keys, List.map_map]
  refine List.map_congr_left ?_
  intro kv _
  by_cases hk : kv.1 = k
  · simp [hk, Function.comp]
  · simp [hk, Function.comp]

theorem keys_map_pair (l : List String) (f : String → α) :
    keys (l.map (fun c => (c, f c))) = l := by
  unfold keys
  rw [List.map_map]
  exact List.map_id l

theorem lookup_map_pair_of_mem (l : List String) (f : String → α) (c : String)
    (h : c ∈ l) : (l.map (fun x => (x, f x))).lookup c = some (f c) := by
  induction l with
  | nil => cases h
  | cons x t ih =>
    by_cases hcx : c = x
    · subst hcx
      simp [List.lookup]
    · have hct : c ∈ t := (List.mem_cons.mp h).resolve_left hcx
      simp [List.lookup, beq_eq_false_iff_ne.mpr hcx, ih hct]

theorem lookup_map_update (m : List (String × α)) (k c : String) (v : α)
    (h : c ≠ k) :
    (m.map (fun kv => if kv.1 = k then (k, v) else kv)).lookup c
      = m.lookup c := by
  induction m with
  | nil => rfl
  | cons kv t ih =>
    obtain ⟨a, b⟩ := kv
    have hck : (c == k) = false := beq_eq_false_iff_ne.mpr h
    simp only [List.map_cons]
    by_cases hak : (a, b).1 = k
    · rw [if_pos hak]
      have hca : (c == a) = false :=
        beq_eq_false_iff_ne.mpr (fun hc => h (hc.trans hak))
      simp [List.lookup, hck, hca, ih]
    · rw [if_neg hak]
      cases hca : (c == a) with
      | true => simp [List.lookup, hca]
      | false => simp [List.lookup, hca, ih]

theorem lookup_append_single_ne (m : List (String × α)) (k c : String) (v : α)
    (h : c ≠ k) : (m ++ [(k, v)]).lookup c = m.lookup c := by
  induction m with
  | nil => simp [List.lookup, beq_eq_false_iff_ne.mpr h]
  | cons kv t ih =>
    obtain ⟨a, b⟩ := kv
    cases hca : (c == a) with
    | true => simp [List.lookup, hca]
    | false => simp [List.lookup, hca, ih]

theorem lookup_setKey_ne (m : List (String × α)) (k c : String) (v : α)
    (h : c ≠ k) : (setKey m k v).lookup c = m.lookup c := by
  unfold setKey
  by_cases hs : (m.lookup k).isSome = true
  · rw [if_pos hs]
    exact lookup_map_update m k c v h
  · rw [if_neg hs]
    exact lookup_append_single_ne m k c v h

/-! ### Key-set preservation through the builder phases -/

theorem setMainNumeric_keys (d : Profile) (ff ff' : FeatureVec)
    (e : String × ℚ × ℚ) (hmem : e.1 ∈ keys ff)
    (h : setMainNumeric d ff e = .ok ff') : keys ff' = keys ff := by
  unfold setMainNumeric at h
  cases hd : d.lookup e.1 with
  | none =>
    rw [hd] at h
    cases h
    rfl
  | some v =>
    rw [hd] at h
    cases v with
    | num q =>
      cases h
      exact keys_setKey_of_mem ff e.1 _ hmem
    | str s => cases h

theorem setOptionalNumeric_keys (d : Profile) (ff ff' : FeatureVec)
    (e : String × ℚ × ℚ) (h : setOptionalNumeric d ff e = .ok ff') :
    keys ff' = keys ff := by
  unfold setOptionalNumeric at h
  cases hd : d.lookup e.1 with
  | none =>
    rw [hd] at h
    cases h
    rfl
  | some v =>
    by_cases hin : (ff.lookup e.1).isSome = true
    · simp only [hd, hin, if_true] at h
      cases v with
      | num q =>
        cases h
        exact keys_setKey_of_mem ff e.1 _ ((lookup_isSome_iff ff e.1).mp hin)
      | str s => cases h
    · simp only [hd, hin, if_false, Bool.false_eq_true] at h
      cases h
      rfl

theorem foldlM_main_keys (d : Profile) (L : List (String × ℚ × ℚ)) :
    ∀ (ff ff' : FeatureVec), (∀ e ∈ L, e.1 ∈ keys ff) →
    L.foldlM (setMainNumeric d) ff = .ok ff' → keys ff' = keys ff := by
  induction L with
  | nil =>
    intro ff ff' _ h
    simp only [List.foldlM_nil, pure, Except.pure, Except.ok.injEq] at h
    rw [h]
  | cons e t ih =>
    intro ff ff' hmem h
    rw [List.foldlM_cons] at h
    cases hstep : setMainNumeric d ff e with
    | error msg => rw [hstep] at h; cases h
    | ok ff1 =>
      rw [hstep] at h
      simp only [bind, Except.bind] at h
      have hk : keys ff1 = keys ff :=
        setMainNumeric_keys d ff ff1 e (hmem e (List.mem_cons_self e t)) hstep
      have ht : keys ff' = keys ff1 := by
        refine ih ff1 ff' ?_ h
        intro e' he'
        rw [hk]
        exact hmem e' (List.mem_cons_of_mem e he')
      rw [ht, hk]

theorem foldlM_opt_keys (d : Profile) (L : List (String × ℚ × ℚ)) :
    ∀ (ff ff' : FeatureVec),
    L.foldlM (setOptionalNumeric d) ff = .ok ff' → keys ff' = keys ff := by
  induction L with
  | nil =>
    intro ff ff' h
    simp only [List.foldlM_nil, pure, Except.pure, Except.ok.injEq] at h
    rw [h]
  | cons e t ih =>
    intro ff ff' h
    rw [List.foldlM_cons] at h
    cases hstep : setOptionalNumeric d ff e with
    | error msg => rw [hstep] at h; cases h
    | ok ff1 =>
      rw [hstep] at h
      simp only [bind, Except.bind] at h
      rw [ih ff1 ff' h, setOptionalNumeric_keys d ff ff1 e hstep]

theorem processCategoricalEntry_keys (st : FeatureVec × Ctx) (k : String)
    (v : Value) : keys (processCategoricalEntry st k v).1 = keys st.1 := by
  unfold processCategoricalEntry
  by_cases hn : k = "name"
  · rw [if_pos hn]
  · rw [if_neg hn]
    cases v with
    | num q => rfl
    | str s =>
      by_cases ho : pyStartsWith s "OTHER: " = true
      · simp only [ho, if_true]
      · simp only [ho, if_false, Bool.false_eq_true]
        cases hm : (categoricalMappings.lookup k).bind (fun m => m.lookup s) with
        | none => simp only [hm]
        | some fcol =>
          simp only [hm]
          by_cases hin : (st.1.lookup fcol).isSome = true
          · simp only [hin, if_true]
            exact keys_setKey_of_mem st.1 fcol 1 ((lookup_isSome_iff st.1 fcol).mp hin)
          · simp only [hin, if_false, Bool.false_eq_true]

theorem catFold_keys (d : Profile) :
    ∀ (st : FeatureVec × Ctx),
    keys (d.foldl (fun st kv => processCategoricalEntry st kv.1 kv.2) st).1
      = keys st.1 := by
  induction d with
  | nil => intro st; rfl
  | cons kv t ih =>
    intro st
    rw [List.foldl_cons, ih, processCategoricalEntry_keys]

/-! ### Value preservation for columns not set by the profile -/

theorem setMainNumeric_frame (d : Profile) (ff ff' : FeatureVec)
    (e : String × ℚ × ℚ) (c : String)
    (hne : ¬(e.1 = c ∧ (d.lookup e.1).isSome = true))
    (h : setMainNumeric d ff e = .ok ff') : ff'.lookup c = ff.lookup c := by
  unfold setMainNumeric at h
  cases hd : d.lookup e.1 with
  | none =>
    rw [hd] at h
    cases h
    rfl
  | some v =>
    rw [hd] at h
    cases v with
    | num q =>
      cases h
      have hec : e.1 ≠ c := fun hh => hne ⟨hh, by rw [hd]; rfl⟩
      exact lookup_setKey_ne ff e.1 c _ (Ne.symm hec)
    | str s => cases h

theorem setOptionalNumeric_frame (d : Profile) (ff ff' : FeatureVec)
    (e : String × ℚ × ℚ) (c : String)
    (hne : ¬(e.1 = c ∧ (d.lookup e.1).isSome = true))
    (h : setOptionalNumeric d ff e = .ok ff') : ff'.lookup c = ff.lookup c := by
  unfold setOptionalNumeric at h
  cases hd : d.lookup e.1 with
  | none =>
    rw [hd] at h
    cases h
    rfl
  | some v =>
    by_cases hin : (ff.lookup e.1).isSome = true
    · simp only [hd, hin, if_true] at h
      cases v with
      | num q =>
        cases h
        have hec : e.1 ≠ c := fun hh => hne ⟨hh, by rw [hd]; rfl⟩
        exact lookup_setKey_ne ff e.1 c _ (Ne.symm hec)
      | str s => cases h
    · simp only [hd, hin, if_false, Bool.false_eq_true] at h
      cases h
      rfl

theorem foldlM_main_frame (d : Profile) (L : List (String × ℚ × ℚ)) :
    ∀ (ff ff' : FeatureVec) (c : String),
    (∀ e ∈ L, ¬(e.1 = c ∧ (d.lookup e.1).isSome = true)) →
    L.foldlM (setMainNumeric d) ff = .ok ff' → ff'.lookup c = ff.lookup c := by
  induction L with
  | nil =>
    intro ff ff' c _ h
    simp only [List.foldlM_nil, pure, Except.pure, Except.ok.injEq] at h
    rw [h]
  | cons e t ih =>
    intro ff ff' c hL h
    rw [List.foldlM_cons] at h
    cases hstep : setMainNumeric d ff e with
    | error msg => rw [hstep] at h; cases h
    | ok ff1 =>
      rw [hstep] at h
      simp only [bind, Except.bind] at h
      rw [ih ff1 ff' c (fun e' he' => hL e' (List.mem_cons_of_mem e he')) h,
        setMainNumeric_frame d ff ff1 e c (hL e (List.mem_cons_self e t)) hstep]

theorem foldlM_opt_frame (d : Profile) (L : List (String × ℚ × ℚ)) :
    ∀ (ff ff' : FeatureVec) (c : String),
    (∀ e ∈ L, ¬(e.1 = c ∧ (d.lookup e.1).isSome = true)) →
    L.foldlM (setOptionalNumeric d) ff = .ok ff' → ff'.lookup c = ff.lookup c := by
  induction L with
  | nil =>
    intro ff ff' c _ h
    simp only [List.foldlM_nil, pure, Except.pure, Except.ok.injEq] at h
    rw [h]
  | cons e t ih =>
    intro ff ff' c hL h
    rw [List.foldlM_cons] at h
    cases hstep : setOptionalNumeric d ff e with
    | error msg => rw [hstep] at h; cases h
    | ok ff1 =>
      rw [hstep] at h
      simp only [bind, Except.bind] at h
      rw [ih ff1 ff' c (fun e' he' => hL e' (List.mem_cons_of_mem e he')) h,
        setOptionalNumeric_frame d ff ff1 e c (hL e (List.mem_cons_self e t))
          hstep]

theorem processCategoricalEntry_frame (st : FeatureVec × Ctx) (k : String)
    (v : Value) (c : String)
    (hne : ∀ s, v = Value.str s →
      (categoricalMappings.lookup k).bind (fun m => m.lookup s) ≠ some c) :
    ((processCategoricalEntry st k v).1).lookup c = (st.1).lookup c := by
  unfold processCategoricalEntry
  by_cases hn : k = "name"
  · rw [if_pos hn]
  · rw [if_neg hn]
    cases v with
    | num q => rfl
    | str s =>
      by_cases ho : pyStartsWith s "OTHER: " = true
      · simp only [ho, if_true]
      · simp only [ho, Bool.false_eq_true, if_false]
        cases hm : (categoricalMappings.lookup k).bind (fun m => m.lookup s) with
        | none => simp only [hm]
        | some fcol =>
          simp only [hm]
          have hfc : fcol ≠ c := fun hh => hne s rfl (by rw [hm, hh])
          by_cases hin : (st.1.lookup fcol).isSome = true
          · simp only [hin, if_true]
            exact lookup_setKey_ne st.1 fcol c 1 (Ne.symm hfc)
          · simp only [hin, Bool.false_eq_true, if_false]

theorem catFold_frame (d : Profile) :
    ∀ (st : FeatureVec × Ctx) (c : String),
    (∀ kv ∈ d, ∀ s, kv.2 = Value.str s →
      (categoricalMappings.lookup kv.1).bind (fun m => m.lookup s) ≠ some c) →
    ((d.foldl (fun st kv => processCategoricalEntry st kv.1 kv.2) st).1).lookup c
      = (st.1).lookup c := by
  induction d with
  | nil => intro st c _; rfl
  | cons kv t ih =>
    intro st c hd
    rw [List.foldl_cons,
      ih _ c (fun kv' h' => hd kv' (List.mem_cons_of_mem kv h')),
      processCategoricalEntry_frame st kv.1 kv.2 c
        (hd kv (List.mem_cons_self kv t))]

/-! ### Claim theorems -/

/-- C1: For every profile, when `_create_full_feature_vector` returns, the
key set of the returned feature vector is exactly the loaded
`feature_columns` list — every declared column is present and no key outside
the declared column set is added, regardless of which attributes the profile
supplied — and every declared column the profile does not set (no numeric
attribute of that name present, no categorical entry mapping to it) holds
exactly the default value 0.0. -/
theorem c1_keys_invariant (d : Profile) (r : FeatureVec × Ctx)
    (h : _create_full_feature_vector feature_columns d = Except.ok r) :
    keys r.1 = feature_columns ∧
    ∀ c ∈ feature_columns, touchedBy d c = false → r.1.lookup c = some 0 := by
  unfold _create_full_feature_vector at h
  have hkeys0 : keys (feature_columns.map (fun c => (c, (0 : ℚ))))
      = feature_columns := keys_map_pair feature_columns _
  cases h1 : mainNumericMappings.foldlM (setMainNumeric d)
      (feature_columns.map (fun c => (c, (0 : ℚ)))) with
  | error msg => rw [h1] at h; cases h
  | ok ff1 =>
    rw [h1] at h
    simp only [bind, Except.bind] at h
    have hk1 : keys ff1 = feature_columns := by
      rw [← hkeys0]
      refine foldlM_main_keys d mainNumericMappings _ ff1 ?_ h1
      rw [hkeys0]
      decide
    cases h2 : optionalNumericMappings.foldlM (setOptionalNumeric d) ff1 with
    | error msg => rw [h2] at h; cases h
    | ok ff2 =>
      rw [h2] at h
      simp only [pure, Except.pure, Except.ok.injEq] at h
      have hk2 : keys ff2 = feature_columns :=
        (foldlM_opt_keys d optionalNumericMappings ff1 ff2 h2).trans hk1
      refine ⟨?_, ?_⟩
      · rw [← h]
        exact (catFold_keys d (ff2, [])).trans hk2
      · intro c hc htouch
        unfold touchedBy at htouch
        rw [Bool.or_eq_false_iff, Bool.or_eq_false_iff] at htouch
        have hA := htouch.1.1
        have hB := htouch.1.2
        have hC := htouch.2
        rw [List.any_eq_false] at hA hB hC
        have hA' : ∀ e ∈ mainNumericMappings,
            ¬(e.1 = c ∧ (d.lookup e.1).isSome = true) := by
          intro e he hcon
          refine hA e he ?_
          rw [Bool.and_eq_true]
          exact ⟨beq_iff_eq.mpr hcon.1, hcon.2⟩
        have hB' : ∀ e ∈ optionalNumericMappings,
            ¬(e.1 = c ∧ (d.lookup e.1).isSome = true) := by
          intro e he hcon
          refine hB e he ?_
          rw [Bool.and_eq_true]
          exact ⟨beq_iff_eq.mpr hcon.1, hcon.2⟩
        have hC' : ∀ kv ∈ d, ∀ s, kv.2 = Value.str s →
            (categoricalMappings.lookup kv.1).bind (fun m => m.lookup s)
              ≠ some c := by
          intro kv hkv s hs hbind
          have hkvf := hC kv hkv
          rw [hs] at hkvf
          simp only [hbind] at hkvf
          exact hkvf (beq_self_eq_true c)
        have e3 : r.1.lookup c = ff2.lookup c := by
          rw [← h]
          exact catFold_frame d (ff2, []) c hC'
        have e2 : ff2.lookup c = ff1.lookup c :=
          foldlM_opt_frame d optionalNumericMappings ff1 ff2 c hB' h2
        have e1 : ff1.lookup c
            = (feature_columns.map (fun x => (x, (0 : ℚ)))).lookup c :=
          foldlM_main_frame d mainNumericMappings _ ff1 c hA' h1
        rw [e3, e2, e1]
        exact lookup_map_pair_of_mem feature_columns (fun _ => (0 : ℚ)) c hc

/-- Witness for C1 at a concrete profile supplying a numeric, a categorical
and the name attribute: the key set is the declared column list and a column
the profile does not set (Gender_Male) holds 0.0. -/
theorem c1_keys_witness :
    ∃ r, _create_full_feature_vector feature_columns
        [("name", Value.str "A"), ("Age", Value.num 40),
         ("Department", Value.str "Sales")] = Except.ok r ∧
      keys r.1 = feature_columns ∧
      r.1.lookup "Gender_Male" = some 0 := by
  refine ⟨_, rfl, ?_, ?_⟩
  · exact (c1_keys_invariant
      [("name", Value.str "A"), ("Age", Value.num 40),
       ("Department", Value.str "Sales")] _ rfl).1
  · exact (c1_keys_invariant
      [("name", Value.str "A"), ("Age", Value.num 40),
       ("Department", Value.str "Sales")] _ rfl).2 "Gender_Male"
      (by decide) (by decide)

/-- C2 counterexample: the profile supplies `Department = "Marketing"`, a
categorical value that resolves to no model column and does not carry the
`"OTHER: "` marker. The claim says the value is recorded in the returned
LLMContext; the code returns an empty LLMContext, recording nothing. -/
theorem c2_counterexample :
    (_create_full_feature_vector feature_columns
      [("name", Value.str "A"), ("Department", Value.str "Marketing")]).map
        Prod.snd = Except.ok [] := by
  rfl

/-- C2 amended: an attribute whose string value starts with `"OTHER: "` sets
no model column and is recorded in LLMContext with every occurrence of
`"OTHER: "` removed from the supplied value; an unknown categorical value
without that marker sets no model column and is not recorded in LLMContext
at all; the name field is skipped. The third conjunct shows an end-to-end
run of the `"OTHER: "` path. -/
theorem c2_other_handling :
    (∀ (st : FeatureVec × Ctx) (k s : String), k ≠ "name" →
      pyStartsWith s "OTHER: " = true →
      processCategoricalEntry st k (Value.str s)
        = (st.1, setKey st.2 k (pyReplace s "OTHER: " ""))) ∧
    (∀ (st : FeatureVec × Ctx) (k s : String), k ≠ "name" →
      pyStartsWith s "OTHER: " = false →
      (categoricalMappings.lookup k).bind (fun m => m.lookup s) = none →
      processCategoricalEntry st k (Value.str s) = st) ∧
    (_create_full_feature_vector feature_columns
      [("name", Value.str "A"),
       ("EducationField", Value.str "OTHER: nursing")]).map Prod.snd
      = Except.ok [("EducationField", "nursing")] := by
  refine ⟨?_, ?_, rfl⟩
  · intro st k s hn ho
    unfold processCategoricalEntry
    simp only [hn, ho, if_true, if_false]
  · intro st k s hn ho hm
    unfold processCategoricalEntry
    simp only [hn, ho, hm, if_true, if_false, Bool.false_eq_true]

/-- C3: the two prediction paths are asymmetric with respect to scaling.
`predict_from_test_data` never invokes the scaler (its result is unchanged
under any replacement of the scaler) and feeds the raw row values to
`predict_proba`; `predict_simplified_input` always applies
`scaler.transform` to the full feature vector before `predict_proba`. -/
theorem c3_scaling_asymmetry :
    (∀ (P : AttritionPredictor) (t : List ℚ → List ℚ) (i : ℤ),
      predict_from_test_data ⟨P.model, t, P.feature_columns, P.test_data⟩ i
        = predict_from_test_data P i) ∧
    (∀ (P : AttritionPredictor) (i : ℤ) (row : String → ℚ),
      ¬ ((P.test_data.length : ℤ) ≤ i) → iloc P.test_data i = some row →
      (predict_from_test_data P i).map (fun r => r.attrition_probability)
        = Except.ok (P.model (P.feature_columns.map row))) ∧
    (∀ (P : AttritionPredictor) (d : Profile) (v : FeatureVec × Ctx)
      (r : ProfilePredResult),
      _create_full_feature_vector P.feature_columns d = Except.ok v →
      predict_simplified_input_core P d = Except.ok r →
      r.attrition_probability = P.model (P.scaler (v.1.map Prod.snd))) := by
  refine ⟨?_, ?_, ?_⟩
  · intro P t i
    cases P
    rfl
  · intro P i row hle hrow
    unfold predict_from_test_data
    rw [if_neg hle]
    simp only [hrow, Except.map]
  · intro P d v r h1 h2
    unfold predict_simplified_input_core at h2
    simp only [h1, bind, Except.bind] at h2
    cases hn : d.lookup "name" with
    | none =>
      simp only [hn] at h2
      exact Except.noConfusion h2
    | some v' =>
      simp only [hn, pure, Except.pure, Except.ok.injEq] at h2
      rw [← h2]

/-- C4: for every row index at or beyond the test-dataset length the call
returns the not-found error naming `N-1` as the maximum valid index, without
invoking the classifier (the result is unchanged under any replacement of
the model); for index `N-1` it succeeds and the result's `features` key set
is exactly the declared column list. -/
theorem c4_index_bounds :
    (∀ (P : AttritionPredictor) (i : ℤ), (P.test_data.length : ℤ) ≤ i →
      predict_from_test_data P i
        = Except.error ("Employee index " ++ toString i ++
            " not found. Max index: "
            ++ toString ((P.test_data.length : ℤ) - 1))) ∧
    (∀ (P : AttritionPredictor) (m : List ℚ → ℚ) (i : ℤ),
      (P.test_data.length : ℤ) ≤ i →
      predict_from_test_data ⟨m, P.scaler, P.feature_columns, P.test_data⟩ i
        = predict_from_test_data P i) ∧
    (∀ (P : AttritionPredictor), P.test_data ≠ [] →
      ∃ r, predict_from_test_data P ((P.test_data.length : ℤ) - 1)
          = Except.ok r ∧ keys r.features = P.feature_columns) := by
  refine ⟨?_, ?_, ?_⟩
  · intro P i hle
    unfold predict_from_test_data
    rw [if_pos hle]
  · intro P m i hle
    unfold predict_from_test_data
    rw [if_pos hle, if_pos hle]
  · intro P hne
    have hlen : 0 < P.test_data.length := List.length_pos.mpr hne
    have hguard : ¬ ((P.test_data.length : ℤ) ≤ (P.test_data.length : ℤ) - 1) := by
      omega
    have hnat : ((P.test_data.length : ℤ) - 1).toNat = P.test_data.length - 1 := by
      omega
    have hlt : P.test_data.length - 1 < P.test_data.length := by omega
    have hrow : iloc P.test_data ((P.test_data.length : ℤ) - 1)
        = some (P.test_data.get ⟨P.test_data.length - 1, hlt⟩) := by
      unfold iloc
      rw [if_pos (by omega : (0:ℤ) ≤ (P.test_data.length : ℤ) - 1), hnat]
      exact List.get?_eq_get hlt
    unfold predict_from_test_data
    rw [if_neg hguard]
    simp only [hrow]
    exact ⟨_, rfl, keys_map_pair _ _⟩

/-- C5 counterexample: the claim says probability exactly 0.6 maps to a
"High" tier and 0.8 to a distinct "Very High" tier. In the code a
probability of 0.6 falls in the middle branch (MEDIUM RISK, medium-risk
questions), 0.8 takes the same branch as 0.7, and no fourth tier exists. -/
theorem c5_counterexample :
    display_risk_level (6/10) = RiskLevel.medium ∧
    display_risk_level (8/10) = RiskLevel.high ∧
    get_conversation_starter (6/10) = medium_risk_questions ∧
    get_conversation_starter (8/10) = get_conversation_starter (7/10) ∧
    medium_risk_questions ≠ high_risk_questions := by
  refine ⟨?_, ?_, ?_, ?_, ?_⟩
  · unfold display_risk_level
    rw [if_neg (by norm_num), if_pos (by norm_num)]
  · unfold display_risk_level
    rw [if_pos (by norm_num)]
  · unfold get_conversation_starter
    rw [if_neg (by norm_num), if_pos (by norm_num)]
  · unfold get_conversation_starter
    rw [if_pos (by norm_num), if_pos (by norm_num)]
  · decide

/-- C5 amended: risk derivation is three-tier with boundaries closed on the
lower end, identically in `display_results` and `get_conversation_starter`:
probability ≥ 0.7 maps to the high branch (exactly 0.7 included), 0.4 ≤ p <
0.7 to the medium branch (exactly 0.4 included), and p < 0.4 to the low
branch; there is no "Very High" tier. -/
theorem c5_three_tier :
    (∀ p : ℚ, display_risk_level p = RiskLevel.high ↔ 7/10 ≤ p) ∧
    (∀ p : ℚ, display_risk_level p = RiskLevel.medium ↔ 4/10 ≤ p ∧ p < 7/10) ∧
    (∀ p : ℚ, display_risk_level p = RiskLevel.low ↔ p < 4/10) ∧
    (∀ p : ℚ, 7/10 ≤ p → get_conversation_starter p = high_risk_questions) ∧
    (∀ p : ℚ, 4/10 ≤ p → p < 7/10 →
      get_conversation_starter p = medium_risk_questions) ∧
    (∀ p : ℚ, p < 4/10 → get_conversation_starter p = low_risk_questions) ∧
    display_risk_level (7/10) = RiskLevel.high ∧
    display_risk_level (4/10) = RiskLevel.medium := by
  have hd : ∀ p : ℚ, display_risk_level p
      = if 7/10 ≤ p then RiskLevel.high
        else if 4/10 ≤ p then RiskLevel.medium else RiskLevel.low :=
    fun p => rfl
  refine ⟨?_, ?_, ?_, ?_, ?_, ?_, ?_, ?_⟩
  · intro p
    rw [hd]
    split_ifs with h1 h2
    · exact ⟨fun _ => h1, fun _ => rfl⟩
    · exact ⟨fun hc => absurd hc (by decide), fun hc => absurd hc h1⟩
    · exact ⟨fun hc => absurd hc (by decide), fun hc => absurd hc h1⟩
  · intro p
    rw [hd]
    split_ifs with h1 h2
    · exact ⟨fun hc => absurd hc (by decide),
        fun hc => absurd h1 (not_le.mpr hc.2)⟩
    · exact ⟨fun _ => ⟨h2, not_le.mp h1⟩, fun _ => rfl⟩
    · exact ⟨fun hc => absurd hc (by decide), fun hc => absurd hc.1 h2⟩
  · intro p
    rw [hd]
    split_ifs with h1 h2
    · exact ⟨fun hc => absurd hc (by decide), fun hc => absurd h1 (by linarith)⟩
    · exact ⟨fun hc => absurd hc (by decide),
        fun hc => absurd h2 (not_le.mpr hc)⟩
    · exact ⟨fun _ => not_le.mp h2, fun _ => rfl⟩
  · intro p h1
    unfold get_conversation_starter
    rw [if_pos h1]
  · intro p h2 h1
    unfold get_conversation_starter
    rw [if_neg (not_le.mpr h1), if_pos h2]
  · intro p h
    unfold get_conversation_starter
    rw [if_neg (by linarith), if_neg (by linarith)]
  · unfold display_risk_level
    rw [if_pos (by norm_num)]
  · unfold display_risk_level
    rw [if_neg (by norm_num), if_pos (by norm_num)]

/-- A predictor whose classifier returns exactly the configured threshold
probability on every input, over one all-zero test row: it exercises the
boundary case probability = 0.68 on both paths. -/
def boundaryPredictor : AttritionPredictor :=
  ⟨fun _ => 68/100, fun l => l, feature_columns, [fun _ => (0:ℚ)]⟩

/-- C6: on both prediction paths the leave/stay decision is
`probability ≥ threshold` with the fixed threshold 0.68, and a probability
exactly equal to 0.68 is classified as "will leave" (the comparison is ≥,
not >), again on both paths. -/
theorem c6_threshold_decision :
    threshold = 68/100 ∧
    (∀ (P : AttritionPredictor) (i : ℤ),
      (predict_from_test_data P i).map (fun r => r.will_leave)
        = (predict_from_test_data P i).map
            (fun r => decide (threshold ≤ r.attrition_probability))) ∧
    (∀ (P : AttritionPredictor) (d : Profile),
      (predict_simplified_input_core P d).map (fun r => r.will_leave)
        = (predict_simplified_input_core P d).map
            (fun r => decide (threshold ≤ r.attrition_probability))) ∧
    (predict_from_test_data boundaryPredictor 0).map (fun r => r.will_leave)
      = Except.ok true ∧
    (predict_simplified_input_core boundaryPredictor
      [("name", Value.str "A")]).map (fun r => r.will_leave)
      = Except.ok true := by
  have hdec : decide (threshold ≤ (68:ℚ)/100) = true := by
    rw [decide_eq_true_eq]
    norm_num [threshold]
  have hTest : ∀ (P : AttritionPredictor) (i : ℤ),
      (predict_from_test_data P i).map (fun r => r.will_leave)
        = (predict_from_test_data P i).map
            (fun r => decide (threshold ≤ r.attrition_probability)) := by
    intro P i
    unfold predict_from_test_data
    split_ifs with h
    · rfl
    · cases hrow : iloc P.test_data i with
      | none => simp only [hrow]; rfl
      | some row => simp only [hrow]; rfl
  have hCore : ∀ (P : AttritionPredictor) (d : Profile),
      (predict_simplified_input_core P d).map (fun r => r.will_leave)
        = (predict_simplified_input_core P d).map
            (fun r => decide (threshold ≤ r.attrition_probability)) := by
    intro P d
    unfold predict_simplified_input_core
    cases hv : _create_full_feature_vector P.feature_columns d with
    | error msg => simp only [hv, bind, Except.bind]; rfl
    | ok v =>
      simp only [hv, bind, Except.bind]
      cases hn : d.lookup "name" with
      | none => simp only [hn]; rfl
      | some v' => simp only [hn]; rfl
  have hres1 : predict_from_test_data boundaryPredictor 0
      = Except.ok ⟨"Test Employee " ++ toString (0:ℤ), 0, 68/100,
          decide (threshold ≤ (68:ℚ)/100), pyInt 0,
          feature_columns.map (fun c => (c, (0:ℚ)))⟩ := rfl
  have hres2 : predict_simplified_input_core boundaryPredictor
      [("name", Value.str "A")]
      = Except.ok ⟨Value.str "A", 68/100, decide (threshold ≤ (68:ℚ)/100),
          [("name", Value.str "A")],
          feature_columns.map (fun c => (c, (0:ℚ))), []⟩ := rfl
  refine ⟨rfl, hTest, hCore, ?_, ?_⟩
  · rw [hres1]
    simp only [Except.map, hdec]
  · rw [hres2]
    simp only [Except.map, hdec]

/-- C7: the numeric attributes are normalized by the affine map
`(value - center) / scale` with the per-attribute constants of the source
(age 35/10, income 6000/4000, tenure 5/5, distance 10/10); in particular a
profile with Age = 35 yields feature value exactly 0 for the Age column and
Age = 45 yields exactly 1. -/
theorem c7_numeric_normalization :
    (∀ a m y dd : ℚ,
      (_create_full_feature_vector feature_columns
        [("name", Value.str "E"), ("Age", Value.num a),
         ("MonthlyIncome", Value.num m), ("YearsAtCompany", Value.num y),
         ("DistanceFromHome", Value.num dd)]).map
          (fun r => (r.1.lookup "Age", r.1.lookup "MonthlyIncome",
            r.1.lookup "YearsAtCompany", r.1.lookup "DistanceFromHome"))
        = Except.ok (some ((a - 35) / 10), some ((m - 6000) / 4000),
            some ((y - 5) / 5), some ((dd - 10) / 10))) ∧
    (_create_full_feature_vector feature_columns
      [("name", Value.str "E"), ("Age", Value.num 35)]).map
        (fun r => r.1.lookup "Age") = Except.ok (some 0) ∧
    (_create_full_feature_vector feature_columns
      [("name", Value.str "E"), ("Age", Value.num 45)]).map
        (fun r => r.1.lookup "Age") = Except.ok (some 1) := by
  have hAge : ∀ a : ℚ, (_create_full_feature_vector feature_columns
      [("name", Value.str "E"), ("Age", Value.num a)]).map
        (fun r => r.1.lookup "Age") = Except.ok (some ((a - 35) / 10)) :=
    fun a => rfl
  refine ⟨fun a m y dd => rfl, ?_, ?_⟩
  · rw [hAge 35]
    norm_num
  · rw [hAge 45]
    norm_num

/-- C8: a profile selecting `Department = "Sales"` sets exactly the
`Department_Sales` column to 1 with both sibling Department columns left at
0; in general, one step of the categorical loop either leaves the feature
vector unchanged or sets exactly one column to 1. -/
theorem c8_one_hot :
    ((_create_full_feature_vector feature_columns
      [("name", Value.str "A"), ("Department", Value.str "Sales")]).map
        (fun r => (r.1.lookup "Department_Sales",
          r.1.lookup "Department_Research & Development",
          r.1.lookup "Department_Human Resources"))
      = Except.ok (some 1, some 0, some 0)) ∧
    (∀ (st : FeatureVec × Ctx) (k : String) (v : Value),
      (processCategoricalEntry st k v).1 = st.1 ∨
      ∃ c, (processCategoricalEntry st k v).1 = setKey st.1 c 1) := by
  refine ⟨rfl, ?_⟩
  intro st k v
  unfold processCategoricalEntry
  by_cases hn : k = "name"
  · rw [if_pos hn]
    exact Or.inl rfl
  · rw [if_neg hn]
    cases v with
    | num q => exact Or.inl rfl
    | str s =>
      by_cases ho : pyStartsWith s "OTHER: " = true
      · simp only [ho, if_true]
        exact Or.inl trivial
      · simp only [ho, Bool.false_eq_true, if_false]
        cases hm : (categoricalMappings.lookup k).bind (fun m => m.lookup s) with
        | none =>
          simp only [hm]
          exact Or.inl trivial
        | some fcol =>
          simp only [hm]
          by_cases hin : (st.1.lookup fcol).isSome = true
          · simp only [hin, if_true]
            exact Or.inr ⟨fcol, rfl⟩
          · simp only [hin, Bool.false_eq_true, if_false]
            exact Or.inl trivial

/-- C9: `predict_simplified_input` is declared with no parameter besides
`self`, yet the `main.py` pipeline and the FastAPI `/analyze` endpoint both
call it with a profile-dictionary argument; every such call raises
`TypeError` before any of the method's body runs (for every possible body),
so these two entry points never produce a prediction result on the
custom-profile path. -/
theorem c9_arity_type_error :
    ∀ (body : List Profile → Except String ProfilePredResult) (d : Profile),
      main_custom_branch body d = Except.error "TypeError" ∧
      analyze_custom_branch body d = Except.error "TypeError" :=
  fun _ _ => ⟨rfl, rfl⟩

/-- C10: the bounds check of `predict_from_test_data` guards only the upper
bound: for every negative index `-k` with `1 ≤ k ≤ N` the call does not
error but succeeds, producing the prediction for the row at position `N-k`
(pandas end-relative indexing). -/
theorem c10_negative_index (P : AttritionPredictor) (k : ℕ)
    (h1 : 1 ≤ k) (h2 : k ≤ P.test_data.length) :
    ∃ r, predict_from_test_data P (-(k : ℤ)) = Except.ok r ∧
      r.employee_index = -(k : ℤ) ∧
      r.attrition_probability
        = P.model (P.feature_columns.map
            (P.test_data.get ⟨P.test_data.length - k, by omega⟩)) := by
  have hlt : P.test_data.length - k < P.test_data.length := by omega
  have hrow : iloc P.test_data (-(k : ℤ))
      = some (P.test_data.get ⟨P.test_data.length - k, hlt⟩) := by
    unfold iloc
    rw [if_neg (by omega : ¬ ((0:ℤ) ≤ -(k : ℤ))),
      if_pos (by omega : (0:ℤ) ≤ (P.test_data.length : ℤ) + -(k : ℤ)),
      (by omega : ((P.test_data.length : ℤ) + -(k : ℤ)).toNat
        = P.test_data.length - k)]
    exact List.get?_eq_get hlt
  unfold predict_from_test_data
  rw [if_neg (by omega : ¬ ((P.test_data.length : ℤ) ≤ -(k : ℤ)))]
  simp only [hrow]
  exact ⟨_, rfl, rfl, rfl⟩

/-- Witness for C10: a two-row test dataset, index -1 succeeds and predicts
for the last row. -/
theorem c10_witness :
    ∃ r, predict_from_test_data boundaryPredictor (-((1:ℕ) : ℤ)) = Except.ok r ∧
      r.employee_index = -((1:ℕ) : ℤ) ∧
      r.attrition_probability
        = boundaryPredictor.model (boundaryPredictor.feature_columns.map
            (boundaryPredictor.test_data.get
              ⟨boundaryPredictor.test_data.length - 1, by decide⟩)) :=
  c10_negative_index boundaryPredictor 1 (by decide) (by decide)

end Sentiment
